import Mathlib

/-!
Shallow embedding of the live message distribution subsystem of the chat
backend (packages `models`, `websocket`, `grpc`, `api` of the repository).

External collaborators (PostgreSQL, Redis, the socket transport) are
represented by their observable effects: a database insert is a boolean
outcome parameter, Redis publishes and local broadcasts are collected in
effect lists, and the buffered outbound channel of a connection is a list
bounded by the channel capacity 256.
-/

namespace Chat

/-- The wire envelope `WSMessage` of `internal/websocket/websocket.go`:
type, user_id, username, room_id, content, message_id, timestamp, metadata
(the JSON string map is embedded as an association list). -/
structure WSMessage where
  type : String
  userID : String
  username : String
  roomID : String
  content : String
  messageID : String
  timestamp : Int
  metadata : List (String × String)
deriving DecidableEq, Repr

/-- `models.Connection`: id, user_id, username, room_id and the buffered
`Send` channel (capacity 256), embedded as the list of queued payloads.
The payloads are the marshalled `WSMessage` values. -/
structure Connection where
  id : String
  userID : String
  username : String
  roomID : String
  sendQueue : List WSMessage
deriving DecidableEq, Repr

/-- Capacity of the `Send` channel: `make(chan []byte, 256)` in
`models.NewConnection`. -/
def queueCapacity : Nat := 256

/-- `models.Hub` state: the `Connections` map keyed by connection id,
embedded as a list of connections (Go map keys are unique, which appears
as a `Nodup` hypothesis on the ids where a proof needs it). -/
structure Hub where
  connections : List Connection
deriving DecidableEq, Repr

/-- `models.NewHub`: the hub starts with an empty connection map. -/
def newHub : Hub := { connections := [] }

/-- Result of one step of a hub-mutating operation: the new hub state and
the ids of the connections whose `Send` channel was closed by the step. -/
structure StepResult where
  hub : Hub
  closed : List String
deriving DecidableEq, Repr

/-- Lookup in the `Connections` map by connection id. -/
def lookupConn (h : Hub) (id : String) : Option Connection :=
  h.connections.find? (fun c => c.id == id)

/-- The `Register` case of `models.Hub.Run`:
`h.Connections[conn.ID] = conn` — a plain map assignment, replacing any
existing entry with the same id and closing nothing. -/
def registerConn (h : Hub) (c : Connection) : StepResult :=
  if h.connections.any (fun x => x.id == c.id) then
    { hub := { connections := h.connections.map (fun x => if x.id = c.id then c else x) },
      closed := [] }
  else
    { hub := { connections := h.connections ++ [c] }, closed := [] }

/-- The `Unregister` case of `models.Hub.Run`: if the id is present the
entry is deleted and its `Send` channel closed, otherwise nothing happens. -/
def unregisterConn (h : Hub) (c : Connection) : StepResult :=
  if h.connections.any (fun x => x.id == c.id) then
    { hub := { connections := h.connections.filter (fun x => !(x.id == c.id)) },
      closed := [c.id] }
  else
    { hub := h, closed := [] }

/-- The per-connection body of `WebSocketHandler.broadcastToRoom`
(websocket.go lines 316-325): a connection in the target room gets the
payload by a non-blocking send when its buffer has room; on a full buffer
its channel is closed and it is deleted from `h.hub.Connections`;
connections of other rooms are untouched. `none` = closed-and-deleted. -/
def deliverTo (roomID : String) (msg : WSMessage) (c : Connection) : Option Connection :=
  if c.roomID = roomID then
    if c.sendQueue.length < queueCapacity then
      some { c with sendQueue := c.sendQueue ++ [msg] }
    else
      none
  else
    some c

/-- Connections that receive the payload in `broadcastToRoom`. -/
def wantsMsg (roomID : String) (c : Connection) : Bool :=
  c.roomID == roomID && decide (c.sendQueue.length < queueCapacity)

/-- Connections hitting the `default` branch of the non-blocking send:
in the room but with a full buffer. -/
def isFullMember (roomID : String) (c : Connection) : Bool :=
  c.roomID == roomID && !(decide (c.sendQueue.length < queueCapacity))

/-- Result of `broadcastToRoom`: the hub afterwards, the ids that got the
message enqueued, and the ids whose channel was closed (and entry deleted). -/
structure BroadcastResult where
  hub : Hub
  delivered : List String
  closed : List String
deriving DecidableEq, Repr

/-- `WebSocketHandler.broadcastToRoom` (websocket.go lines 306-326):
iterate over every connection of the hub map, enqueue to members of the
room whose buffer has space, close-and-delete members with a full buffer,
leave other rooms' connections alone. -/
def broadcastToRoom (h : Hub) (roomID : String) (msg : WSMessage) : BroadcastResult :=
  { hub := { connections := h.connections.filterMap (deliverTo roomID msg) },
    delivered := (h.connections.filter (wantsMsg roomID)).map (fun c => c.id),
    closed := (h.connections.filter (isFullMember roomID)).map (fun c => c.id) }

/-- `fmt.Sprintf("room:%s", roomID)` — the bus channel name used by
`publishToRedis` (websocket.go line 330), `grpc.SendMessage` (line 69) and
`api.Handler.SendMessage` (line 332). -/
def redisChannel (roomID : String) : String := "room:" ++ roomID

/-- Result of handling one incoming frame in the read-loop path: the hub
afterwards, the database statements attempted (in order), the arguments of
the `broadcastToRoom` calls made, and the Redis publishes made. -/
structure IncomingResult where
  hub : Hub
  dbWrites : List String
  broadcasts : List (String × WSMessage)
  publishes : List (String × WSMessage)
deriving DecidableEq, Repr

/-- The envelope built by `handleChatMessage` (websocket.go lines 221-230):
type "message", sender taken from the connection, content and metadata
from the incoming frame, the freshly generated message id and timestamp. -/
def chatBroadcastMsg (conn : Connection) (incoming : WSMessage) (newID : String)
    (now : Int) : WSMessage :=
  { type := "message", userID := conn.userID, username := conn.username,
    roomID := conn.roomID, content := incoming.content, messageID := newID,
    timestamp := now, metadata := incoming.metadata }

/-- `WebSocketHandler.handleChatMessage` (websocket.go lines 202-237):
generate a fresh message id, INSERT INTO messages; on insert error log and
`return` (nothing is broadcast or published); on success broadcast to the
connection's room and publish to Redis channel `"room:" + roomID`.
`insertOk` is the outcome of the external database collaborator. -/
def handleChatMessage (h : Hub) (conn : Connection) (incoming : WSMessage)
    (newID : String) (now : Int) (insertOk : Bool) : IncomingResult :=
  if insertOk then
    let b := chatBroadcastMsg conn incoming newID now
    { hub := (broadcastToRoom h conn.roomID b).hub,
      dbWrites := ["insert_message"],
      broadcasts := [(conn.roomID, b)],
      publishes := [(redisChannel conn.roomID, b)] }
  else
    { hub := h, dbWrites := ["insert_message"], broadcasts := [], publishes := [] }

/-- `WebSocketHandler.handleJoinRoom` (websocket.go lines 240-267):
INSERT INTO room_members; on error log and return; on success update the
user status (result ignored) and broadcast a type-"join" notification to
the room. Nothing is published to Redis on this path. -/
def handleJoinRoom (h : Hub) (conn : Connection) (newID : String) (now : Int)
    (insertOk : Bool) : IncomingResult :=
  if insertOk then
    let m : WSMessage :=
      { type := "join", userID := conn.userID, username := conn.username,
        roomID := conn.roomID, content := conn.username ++ " joined the room",
        messageID := newID, timestamp := now, metadata := [] }
    { hub := (broadcastToRoom h conn.roomID m).hub,
      dbWrites := ["insert_room_member", "update_user_status"],
      broadcasts := [(conn.roomID, m)], publishes := [] }
  else
    { hub := h, dbWrites := ["insert_room_member"], broadcasts := [], publishes := [] }

/-- `WebSocketHandler.handleLeaveRoom` (websocket.go lines 270-288):
DELETE FROM room_members (result ignored), then broadcast a type-"leave"
notification to the room. -/
def handleLeaveRoom (h : Hub) (conn : Connection) (newID : String) (now : Int) :
    IncomingResult :=
  let m : WSMessage :=
    { type := "leave", userID := conn.userID, username := conn.username,
      roomID := conn.roomID, content := conn.username ++ " left the room",
      messageID := newID, timestamp := now, metadata := [] }
  { hub := (broadcastToRoom h conn.roomID m).hub,
    dbWrites := ["delete_room_member"],
    broadcasts := [(conn.roomID, m)], publishes := [] }

/-- `WebSocketHandler.handleTyping` (websocket.go lines 291-303): broadcast
a type-"typing" notification carrying the incoming content; no database
access, no Redis publish. -/
def handleTyping (h : Hub) (conn : Connection) (incoming : WSMessage)
    (newID : String) (now : Int) : IncomingResult :=
  let m : WSMessage :=
    { type := "typing", userID := conn.userID, username := conn.username,
      roomID := conn.roomID, content := incoming.content,
      messageID := newID, timestamp := now, metadata := [] }
  { hub := (broadcastToRoom h conn.roomID m).hub,
    dbWrites := [],
    broadcasts := [(conn.roomID, m)], publishes := [] }

/-- `WebSocketHandler.handleMessage` (websocket.go lines 186-199): dispatch
on `msg.Type` over exactly "message", "join", "leave", "typing"; any other
type is logged ("Unknown message type") and nothing else happens. -/
def handleMessage (h : Hub) (conn : Connection) (msg : WSMessage)
    (newID : String) (now : Int) (insertOk : Bool) : IncomingResult :=
  if msg.type = "message" then handleChatMessage h conn msg newID now insertOk
  else if msg.type = "join" then handleJoinRoom h conn newID now insertOk
  else if msg.type = "leave" then handleLeaveRoom h conn newID now
  else if msg.type = "typing" then handleTyping h conn msg newID now
  else { hub := h, dbWrites := [], broadcasts := [], publishes := [] }

/-- One iteration of the body of `WebSocketHandler.readPump`
(websocket.go lines 129-147) after a frame was read: `none` is a frame
whose JSON failed to unmarshal — logged, `continue`; a parsed frame goes
to `handleMessage`. -/
def readPumpStep (h : Hub) (conn : Connection) (frame : Option WSMessage)
    (newID : String) (now : Int) (insertOk : Bool) : IncomingResult :=
  match frame with
  | none => { hub := h, dbWrites := [], broadcasts := [], publishes := [] }
  | some m => handleMessage h conn m newID now insertOk

/-- One iteration of the body of `WebSocketHandler.listenRedisMessages`
(websocket.go lines 346-362) after a bus message arrived: `none` is a
payload whose JSON failed to unmarshal — logged, `continue`; a parsed
envelope is passed straight to `broadcastToRoom` on its own room. There is
no deduplication of any kind on this path: the envelope is re-broadcast
unconditionally, whether or not it was already delivered locally. -/
def listenRedisStep (h : Hub) (payload : Option WSMessage) : BroadcastResult :=
  match payload with
  | none => { hub := h, delivered := [], closed := [] }
  | some m => broadcastToRoom h m.roomID m

/-- The protobuf chat message (`pb.Message`) as used by the gRPC server in
`internal/grpc`: id, user_id, username, room_id, content, message_type,
timestamp, metadata. -/
structure PbMessage where
  id : String
  userId : String
  username : String
  roomId : String
  content : String
  messageType : String
  timestamp : Int
  metadata : List (String × String)
deriving DecidableEq, Repr

/-- Result of one `ChatServer.SendMessage` call: whether the insert
succeeded, the Redis publishes made, the local `broadcastToRoom` calls
made (the `ChatServer` holds only `db` and `redis` — it has no reference
to any hub, so this list records every local broadcast the handler could
make), and the response (message id on success, error string on failure). -/
structure RpcSendResult where
  stored : Bool
  publishes : List (String × PbMessage)
  broadcasts : List (String × PbMessage)
  success : Bool
  messageId : Option String
  err : Option String
deriving DecidableEq, Repr

/-- The `messageData` map built by `ChatServer.SendMessage` (part_002
lines 58-67): the freshly generated id, the caller's fields and the fresh
timestamp. -/
def rpcPublishedMsg (msg : PbMessage) (newID : String) (now : Int) : PbMessage :=
  { id := newID, userId := msg.userId, username := msg.username,
    roomId := msg.roomId, content := msg.content,
    messageType := msg.messageType, timestamp := now,
    metadata := msg.metadata }

/-- `ChatServer.SendMessage` (part_002 lines 37-78): generate a fresh
message id, INSERT INTO messages; on insert error return a failure
response with a gRPC Internal error; on success publish the message data
to Redis channel `"room:" + roomId` (a publish error is only logged) and
return success with the new message id. No local broadcast is performed
anywhere in the handler. -/
def grpcSendMessage (msg : PbMessage) (newID : String) (now : Int)
    (insertOk : Bool) (_publishOk : Bool) : RpcSendResult :=
  if insertOk then
    { stored := true,
      publishes := [(redisChannel msg.roomId, rpcPublishedMsg msg newID now)],
      broadcasts := [],
      success := true, messageId := some newID, err := none }
  else
    { stored := false, publishes := [], broadcasts := [],
      success := false, messageId := none,
      err := some "Failed to store message" }

/-- The message forwarded to the client by `ChatServer.StreamMessages` for
each bus payload received (part_002 lines 314-322): a freshly generated
uuid as `Id`, placeholder sender fields, and the raw payload string as
content. The original envelope carried by the payload is not parsed and
its message id is not propagated. -/
def streamForward (roomId : String) (freshID : String) (now : Int)
    (payload : String) : PbMessage :=
  { id := freshID, userId := "user", username := "User", roomId := roomId,
    content := payload, messageType := "text", timestamp := now,
    metadata := [] }

/-! Helper lemmas about `broadcastToRoom`. -/

lemma wantsMsg_iff (roomID : String) (c : Connection) :
    wantsMsg roomID c = true ↔ c.roomID = roomID ∧ c.sendQueue.length < queueCapacity := by
  simp [wantsMsg]

lemma deliverTo_of_wants {roomID : String} {msg : WSMessage} {c : Connection}
    (h1 : c.roomID = roomID) (h2 : c.sendQueue.length < queueCapacity) :
    deliverTo roomID msg c = some { c with sendQueue := c.sendQueue ++ [msg] } := by
  simp [deliverTo, h1, h2]

lemma deliverTo_of_full {roomID : String} {msg : WSMessage} {c : Connection}
    (h1 : c.roomID = roomID) (h2 : ¬ c.sendQueue.length < queueCapacity) :
    deliverTo roomID msg c = none := by
  simp [deliverTo, h1, h2]

lemma deliverTo_of_other {roomID : String} {msg : WSMessage} {c : Connection}
    (h1 : c.roomID ≠ roomID) : deliverTo roomID msg c = some c := by
  simp [deliverTo, h1]

lemma deliverTo_id_eq {roomID : String} {msg : WSMessage} {c c' : Connection}
    (h : deliverTo roomID msg c = some c') : c'.id = c.id := by
  unfold deliverTo at h
  split at h
  · split at h
    · cases h; rfl
    · cases h
  · cases h; rfl

lemma mem_broadcast_hub_enqueued {h : Hub} {roomID : String} {msg : WSMessage} {c : Connection}
    (hc : c ∈ h.connections) (hr : c.roomID = roomID)
    (hq : c.sendQueue.length < queueCapacity) :
    { c with sendQueue := c.sendQueue ++ [msg] } ∈ (broadcastToRoom h roomID msg).hub.connections :=
  List.mem_filterMap.mpr ⟨c, hc, deliverTo_of_wants hr hq⟩

lemma mem_broadcast_delivered {h : Hub} {roomID : String} {msg : WSMessage} {c : Connection}
    (hc : c ∈ h.connections) (hr : c.roomID = roomID)
    (hq : c.sendQueue.length < queueCapacity) :
    c.id ∈ (broadcastToRoom h roomID msg).delivered :=
  List.mem_map_of_mem _ (List.mem_filter.mpr ⟨hc, (wantsMsg_iff _ _).mpr ⟨hr, hq⟩⟩)

lemma mem_broadcast_hub_other {h : Hub} {roomID : String} {msg : WSMessage} {c : Connection}
    (hc : c ∈ h.connections) (hr : c.roomID ≠ roomID) :
    c ∈ (broadcastToRoom h roomID msg).hub.connections :=
  List.mem_filterMap.mpr ⟨c, hc, deliverTo_of_other hr⟩

lemma mem_broadcast_closed {h : Hub} {roomID : String} {msg : WSMessage} {c : Connection}
    (hc : c ∈ h.connections) (hr : c.roomID = roomID)
    (hq : ¬ c.sendQueue.length < queueCapacity) :
    c.id ∈ (broadcastToRoom h roomID msg).closed :=
  List.mem_map_of_mem _ (List.mem_filter.mpr ⟨hc, by simp [isFullMember, hr, hq]⟩)

lemma broadcast_delivered_origin {h : Hub} {roomID : String} {msg : WSMessage} {x : String}
    (hx : x ∈ (broadcastToRoom h roomID msg).delivered) :
    ∃ c ∈ h.connections, c.id = x ∧ c.roomID = roomID ∧ c.sendQueue.length < queueCapacity := by
  obtain ⟨c, hc, rfl⟩ := List.mem_map.mp hx
  obtain ⟨hcl, hw⟩ := List.mem_filter.mp hc
  obtain ⟨h1, h2⟩ := (wantsMsg_iff _ _).mp hw
  exact ⟨c, hcl, rfl, h1, h2⟩

lemma broadcast_drops_full {h : Hub} {roomID : String} {msg : WSMessage} {c : Connection}
    (hnd : (h.connections.map (fun x => x.id)).Nodup)
    (hc : c ∈ h.connections) (hr : c.roomID = roomID)
    (hq : ¬ c.sendQueue.length < queueCapacity) :
    ∀ c' ∈ (broadcastToRoom h roomID msg).hub.connections, c'.id ≠ c.id := by
  intro c' hc' heq
  obtain ⟨a, ha, he⟩ := List.mem_filterMap.mp hc'
  have hid : a.id = c.id := (deliverTo_id_eq he) ▸ heq
  have hac : a = c := List.inj_on_of_nodup_map hnd ha hc hid
  subst hac
  rw [deliverTo_of_full hr hq] at he
  cases he

lemma not_delivered_of_not_wants {h : Hub} {roomID : String} {msg : WSMessage} {c : Connection}
    (hnd : (h.connections.map (fun x => x.id)).Nodup)
    (hc : c ∈ h.connections)
    (hw : ¬ (c.roomID = roomID ∧ c.sendQueue.length < queueCapacity)) :
    c.id ∉ (broadcastToRoom h roomID msg).delivered := by
  intro hx
  obtain ⟨a, ha, hid, h1, h2⟩ := broadcast_delivered_origin hx
  have hac : a = c := List.inj_on_of_nodup_map hnd ha hc hid
  subst hac
  exact hw ⟨h1, h2⟩

/-! Helper lemmas about `registerConn`. -/

lemma find?_map_replace (l : List Connection) (c : Connection)
    (hex : ∃ a ∈ l, a.id = c.id) :
    (l.map (fun x => if x.id = c.id then c else x)).find? (fun x => x.id == c.id) = some c := by
  induction l with
  | nil => simp at hex
  | cons a t ih =>
    simp only [List.map_cons]
    by_cases ha : a.id = c.id
    · rw [if_pos ha]
      simp [List.find?_cons_of_pos]
    · rw [if_neg ha]
      rw [List.find?_cons_of_neg _ (by simp [ha])]
      apply ih
      rcases hex with ⟨b, hb, hbid⟩
      rcases List.mem_cons.mp hb with rfl | hbt
      · exact absurd hbid ha
      · exact ⟨b, hbt, hbid⟩

lemma find?_append_self (l : List Connection) (c : Connection)
    (hnone : ∀ a ∈ l, a.id ≠ c.id) :
    (l ++ [c]).find? (fun x => x.id == c.id) = some c := by
  induction l with
  | nil => simp
  | cons a t ih =>
    have ha : a.id ≠ c.id := hnone a (List.mem_cons_self a t)
    rw [List.cons_append, List.find?_cons_of_neg _ (by simp [ha])]
    exact ih (fun b hb => hnone b (List.mem_cons_of_mem a hb))

lemma register_closed_nil (h : Hub) (c : Connection) : (registerConn h c).closed = [] := by
  unfold registerConn
  split <;> rfl

lemma lookup_register (h : Hub) (c : Connection) :
    lookupConn (registerConn h c).hub c.id = some c := by
  unfold registerConn lookupConn
  by_cases hex : h.connections.any (fun x => x.id == c.id) = true
  · rw [if_pos hex]
    apply find?_map_replace
    obtain ⟨a, ha, hpa⟩ := List.any_eq_true.mp hex
    exact ⟨a, ha, by simpa using hpa⟩
  · rw [if_neg hex]
    apply find?_append_self
    intro a ha hid
    exact hex (List.any_eq_true.mpr ⟨a, ha, by simp [hid]⟩)

lemma register_replaces (h : Hub) (c old : Connection)
    (hold : old ∈ h.connections) (hid : old.id = c.id) (hne : old ≠ c) :
    old ∉ (registerConn h c).hub.connections := by
  have hex : h.connections.any (fun x => x.id == c.id) = true :=
    List.any_eq_true.mpr ⟨old, hold, by simp [hid]⟩
  unfold registerConn
  rw [if_pos hex]
  intro hmem
  obtain ⟨a, ha, hae⟩ := List.mem_map.mp hmem
  by_cases haid : a.id = c.id
  · rw [if_pos haid] at hae
    exact hne hae.symm
  · rw [if_neg haid] at hae
    subst hae
    exact haid hid

lemma register_preserves_length (h : Hub) (c old : Connection)
    (hold : old ∈ h.connections) (hid : old.id = c.id) :
    (registerConn h c).hub.connections.length = h.connections.length := by
  have hex : h.connections.any (fun x => x.id == c.id) = true :=
    List.any_eq_true.mpr ⟨old, hold, by simp [hid]⟩
  unfold registerConn
  rw [if_pos hex]
  simp

/-! Concrete fixtures used by the closed theorems and witnesses. -/

/-- A chat envelope "hi" with message id "m1" in room "R1". -/
def msgHi : WSMessage :=
  { type := "message", userID := "u1", username := "alice", roomID := "R1",
    content := "hi", messageID := "m1", timestamp := 0, metadata := [] }

/-- A connection of alice in room "R1" with an empty outbound queue. -/
def connC1 : Connection :=
  { id := "c1", userID := "u1", username := "alice", roomID := "R1", sendQueue := [] }

/-- A connection of carol in room "R2" with an empty outbound queue. -/
def connC3 : Connection :=
  { id := "c3", userID := "u3", username := "carol", roomID := "R2", sendQueue := [] }

/-- A connection in room "R1" whose outbound queue is saturated with 256
unconsumed payloads. -/
def fullQueueConn : Connection :=
  { id := "c2", userID := "u2", username := "bob", roomID := "R1",
    sendQueue := List.replicate queueCapacity msgHi }

/-- A hub whose only connection already received `msgHi` locally. -/
def replayHub : Hub := { connections := [{ connC1 with sendQueue := [msgHi] }] }

/-- A hub whose only connection has a saturated outbound queue. -/
def fullHub : Hub := { connections := [fullQueueConn] }

/-- A hub with one connection in room "R1" and one in room "R2". -/
def twoRoomHub : Hub := { connections := [connC1, connC3] }

/-- C1: the claim says the Bridge subscriber loop deduplicates by
message_id before re-broadcasting, so an envelope already broadcast
locally is not delivered a second time. `listenRedisMessages` has no
dedup: replaying `msgHi` — already sitting in connection c1's queue from
the direct local broadcast — through the subscriber step enqueues it
again, so c1's queue ends up holding the same envelope twice. -/
theorem c1_redis_replay_double_delivery :
    ((listenRedisStep replayHub (some msgHi)).hub.connections.map
      (fun c => c.sendQueue)) = [[msgHi, msgHi]] ∧
    (listenRedisStep replayHub (some msgHi)).delivered = ["c1"] := by
  constructor <;> rfl

/-- C2 counterexample: the claim says a failed storage insert still lets
the broadcast proceed. In `handleChatMessage` a failed insert returns
before any broadcast or publish: the room connection's queue stays empty
and no Redis publish happens. -/
theorem c2_counterexample_insert_failure_blocks_broadcast :
    (handleChatMessage replayHub connC1 msgHi "m2" 1 false).broadcasts = [] ∧
    (handleChatMessage replayHub connC1 msgHi "m2" 1 false).publishes = [] ∧
    (handleChatMessage replayHub connC1 msgHi "m2" 1 false).hub = replayHub := by
  constructor <;> [rfl; constructor <;> rfl]

/-- C2 amended: when the storage insert fails, `handleChatMessage` logs
and returns — the hub is untouched and nothing is broadcast or published;
broadcast and publish happen exactly when the insert succeeds. -/
theorem c2_persist_failure_blocks_delivery (h : Hub) (conn : Connection)
    (msg : WSMessage) (newID : String) (now : Int) :
    handleChatMessage h conn msg newID now false =
      { hub := h, dbWrites := ["insert_message"], broadcasts := [], publishes := [] } ∧
    (handleChatMessage h conn msg newID now true).broadcasts =
      [(conn.roomID, chatBroadcastMsg conn msg newID now)] ∧
    (handleChatMessage h conn msg newID now true).publishes =
      [(redisChannel conn.roomID, chatBroadcastMsg conn msg newID now)] := by
  refine ⟨rfl, ?_, ?_⟩ <;> simp [handleChatMessage]

set_option maxRecDepth 8192 in
/-- C3: the claim says the connection map is mutated only by the
Registry's single control loop and never by a broadcast path. The
`broadcastToRoom` call itself deletes a full-queue member from
`h.hub.Connections` (under the handler's RWMutex, not via the hub's
Unregister channel): broadcasting to a one-member hub whose member has a
full queue leaves the map empty and closes the channel, without any
`unregisterConn` step having run. -/
theorem c3_broadcast_path_mutates_connection_map :
    (broadcastToRoom fullHub "R1" msgHi).hub.connections = [] ∧
    fullHub.connections = [fullQueueConn] ∧
    (broadcastToRoom fullHub "R1" msgHi).closed = ["c2"] := by
  refine ⟨?_, rfl, ?_⟩ <;> rfl

/-- C6: the claim says every delivery path carries the message_id assigned
at ingress. The streaming RPC path does not: `StreamMessages` wraps each
received bus payload in a fresh envelope whose `Id` is a newly generated
uuid ("u2" here) instead of the ingress id "m1" carried by the payload,
and whose content is the raw payload string. -/
theorem c6_stream_reassigns_message_id :
    (streamForward "R1" "u2" 5 "\x7bid: m1, content: hi\x7d").id = "u2" ∧
    ("u2" : String) ≠ "m1" ∧
    (streamForward "R1" "u2" 5 "\x7bid: m1, content: hi\x7d").userId = "user" := by
  exact ⟨rfl, by decide, rfl⟩

/-- C7: the claim says `Register` after a shutdown signal fails with
`RegistryClosed`. The hub has no shutdown signal and no `RegistryClosed`
value at all: `Hub.Run` selects forever over exactly the Register,
Unregister and Broadcast channels, and the Register case is a bare map
assignment — for every hub state, registering succeeds (the id maps to
the connection afterwards) and nothing is closed, so no operation can
ever observe a closed registry. -/
theorem c7_register_never_fails (h : Hub) (c : Connection) :
    (registerConn h c).closed = [] ∧
    lookupConn (registerConn h c).hub c.id = some c :=
  ⟨register_closed_nil h c, lookup_register h c⟩

/-- A protobuf message as submitted to `ChatServer.SendMessage`. -/
def pbMsgHi : PbMessage :=
  { id := "", userId := "u1", username := "alice", roomId := "R1",
    content := "hi", messageType := "text", timestamp := 0, metadata := [] }

/-- C8 counterexample: the claim says a successful `SendMessage` performs
dual delivery — a local Broadcast and a Bridge publish. The gRPC handler
holds no hub and performs no local broadcast: a successful call publishes
to Redis and returns the new id, with an empty local-broadcast trace. -/
theorem c8_counterexample_no_local_broadcast :
    (grpcSendMessage pbMsgHi "m9" 7 true true).success = true ∧
    (grpcSendMessage pbMsgHi "m9" 7 true true).messageId = some "m9" ∧
    (grpcSendMessage pbMsgHi "m9" 7 true true).broadcasts = [] := by
  exact ⟨rfl, rfl, rfl⟩

/-- C8 amended: a successful `SendMessage` persists, publishes the message
data exactly once to the bus channel `"room:" + room_id`, performs no
local broadcast (local delivery relies on the Redis subscriber loop), and
returns the newly assigned message id; a publish failure is only logged
and does not change the response. -/
theorem c8_send_message_publish_only (msg : PbMessage) (newID : String)
    (now : Int) (pubOk : Bool) :
    grpcSendMessage msg newID now true pubOk =
      { stored := true,
        publishes := [(redisChannel msg.roomId, rpcPublishedMsg msg newID now)],
        broadcasts := [], success := true, messageId := some newID, err := none } := by
  rfl

/-- C4 (amended): `broadcastToRoom` enqueues the message onto every
registered connection of the target room whose outbound queue is below
capacity (a full-queue member is dropped instead, see the backpressure
policy), and a connection bound to a different room is left untouched and
receives nothing. -/
theorem c4_broadcast_room_isolation (h : Hub) (roomID : String) (msg : WSMessage)
    (c : Connection)
    (hnd : (h.connections.map (fun x => x.id)).Nodup) (hc : c ∈ h.connections) :
    (c.roomID = roomID → c.sendQueue.length < queueCapacity →
      { c with sendQueue := c.sendQueue ++ [msg] } ∈
        (broadcastToRoom h roomID msg).hub.connections ∧
      c.id ∈ (broadcastToRoom h roomID msg).delivered) ∧
    (c.roomID ≠ roomID →
      c ∈ (broadcastToRoom h roomID msg).hub.connections ∧
      c.id ∉ (broadcastToRoom h roomID msg).delivered) := by
  constructor
  · intro hr hq
    exact ⟨mem_broadcast_hub_enqueued hc hr hq, mem_broadcast_delivered hc hr hq⟩
  · intro hr
    exact ⟨mem_broadcast_hub_other hc hr,
      not_delivered_of_not_wants hnd hc (fun hw => hr hw.1)⟩

/-- Witness for C4 at the spec's own scenario: carol's connection is in
room "R2" only, and a broadcast to "R1" neither touches it nor delivers
anything to it. -/
theorem c4_broadcast_room_isolation_witness :
    ((twoRoomHub.connections.map (fun x => x.id)).Nodup ∧
      connC3 ∈ twoRoomHub.connections) ∧
    ((connC3.roomID = "R1" → connC3.sendQueue.length < queueCapacity →
      { connC3 with sendQueue := connC3.sendQueue ++ [msgHi] } ∈
        (broadcastToRoom twoRoomHub "R1" msgHi).hub.connections ∧
      connC3.id ∈ (broadcastToRoom twoRoomHub "R1" msgHi).delivered) ∧
    (connC3.roomID ≠ "R1" →
      connC3 ∈ (broadcastToRoom twoRoomHub "R1" msgHi).hub.connections ∧
      connC3.id ∉ (broadcastToRoom twoRoomHub "R1" msgHi).delivered)) :=
  ⟨⟨by decide, by decide⟩,
    c4_broadcast_room_isolation twoRoomHub "R1" msgHi connC3 (by decide) (by decide)⟩

set_option maxRecDepth 8192 in
/-- C4 counterexample (the claim as frozen): the claim says the message is
enqueued onto EVERY registered connection whose room matches. A matching
member with a full queue gets nothing enqueued: broadcasting to the
one-member hub whose member's queue is saturated delivers to nobody. -/
theorem c4_counterexample_full_member_not_enqueued :
    fullQueueConn ∈ fullHub.connections ∧ fullQueueConn.roomID = "R1" ∧
    (broadcastToRoom fullHub "R1" msgHi).delivered = [] := by
  exact ⟨List.mem_singleton.mpr rfl, rfl, rfl⟩

/-- C5: a room member whose outbound queue is at capacity at broadcast
time gets no 257th message; instead its channel is closed, it is removed
from the connection map, and no subsequent broadcast (to any room) can
deliver to its id. -/
theorem c5_full_queue_member_dropped (h : Hub) (roomID : String) (msg : WSMessage)
    (c : Connection)
    (hnd : (h.connections.map (fun x => x.id)).Nodup)
    (hc : c ∈ h.connections) (hr : c.roomID = roomID)
    (hq : queueCapacity ≤ c.sendQueue.length) :
    c.id ∉ (broadcastToRoom h roomID msg).delivered ∧
    c.id ∈ (broadcastToRoom h roomID msg).closed ∧
    (∀ c' ∈ (broadcastToRoom h roomID msg).hub.connections, c'.id ≠ c.id) ∧
    (∀ roomID' msg', c.id ∉
      (broadcastToRoom (broadcastToRoom h roomID msg).hub roomID' msg').delivered) := by
  have hq' : ¬ c.sendQueue.length < queueCapacity := not_lt.mpr hq
  refine ⟨?_, ?_, ?_, ?_⟩
  · exact not_delivered_of_not_wants hnd hc (fun hw => hq' hw.2)
  · exact mem_broadcast_closed hc hr hq'
  · exact broadcast_drops_full hnd hc hr hq'
  · intro roomID' msg' hx
    obtain ⟨a, ha, hid, _, _⟩ := broadcast_delivered_origin hx
    exact broadcast_drops_full hnd hc hr hq' a ha hid

/-- Witness for C5 at the spec's scenario: a connection saturated with 256
unconsumed messages in room "R1". -/
theorem c5_full_queue_member_dropped_witness :
    ((fullHub.connections.map (fun x => x.id)).Nodup ∧
      fullQueueConn ∈ fullHub.connections ∧
      fullQueueConn.roomID = "R1" ∧
      queueCapacity ≤ fullQueueConn.sendQueue.length) ∧
    (fullQueueConn.id ∉ (broadcastToRoom fullHub "R1" msgHi).delivered ∧
      fullQueueConn.id ∈ (broadcastToRoom fullHub "R1" msgHi).closed ∧
      (∀ c' ∈ (broadcastToRoom fullHub "R1" msgHi).hub.connections,
        c'.id ≠ fullQueueConn.id) ∧
      (∀ roomID' msg', fullQueueConn.id ∉
        (broadcastToRoom (broadcastToRoom fullHub "R1" msgHi).hub roomID' msg').delivered)) :=
  ⟨⟨by decide, List.mem_singleton.mpr rfl, rfl, by simp [fullQueueConn]⟩,
    c5_full_queue_member_dropped fullHub "R1" msgHi fullQueueConn (by decide)
      (List.mem_singleton.mpr rfl) rfl (by simp [fullQueueConn])⟩

/-- An incoming frame whose type is the spec's "chat" kind. -/
def chatKindMsg : WSMessage := { msgHi with type := "chat" }

/-- An incoming frame whose type is the spec's "heartbeat" kind. -/
def hbMsg : WSMessage := { msgHi with type := "heartbeat" }

/-- C9 counterexample (the claim as frozen): the claim says the allowed
enum is chat/join/leave/typing/system/heartbeat and that kind "chat" goes
to the persist-and-broadcast path. The dispatch is on "message", not
"chat": a frame of type "chat" falls into the unknown-type branch (no
database write, no broadcast, registry untouched), while type "message"
is the one that reaches the persist path. -/
theorem c9_counterexample_chat_kind_unknown :
    (handleMessage replayHub connC1 chatKindMsg "m3" 2 true).dbWrites = [] ∧
    (handleMessage replayHub connC1 chatKindMsg "m3" 2 true).broadcasts = [] ∧
    (handleMessage replayHub connC1 chatKindMsg "m3" 2 true).hub = replayHub ∧
    (handleMessage replayHub connC1 msgHi "m3" 2 true).dbWrites = ["insert_message"] := by
  exact ⟨rfl, rfl, rfl, rfl⟩

/-- C9 (amended): the read loop dispatches on exactly
"message"/"join"/"leave"/"typing"; a malformed frame or any other type
(including "chat", "system", "heartbeat") is logged and the loop continues
with the hub untouched and no effects; "message" goes to the
persist-and-broadcast path, "join"/"leave" to the membership paths, and
"typing" to the broadcast-only path with no database write. -/
theorem c9_dispatch_policy (h : Hub) (conn : Connection) (msg : WSMessage)
    (newID : String) (now : Int) (insertOk : Bool)
    (hunk : msg.type ≠ "message" ∧ msg.type ≠ "join" ∧
      msg.type ≠ "leave" ∧ msg.type ≠ "typing") :
    handleMessage h conn msg newID now insertOk =
      { hub := h, dbWrites := [], broadcasts := [], publishes := [] } ∧
    readPumpStep h conn none newID now insertOk =
      { hub := h, dbWrites := [], broadcasts := [], publishes := [] } ∧
    (∀ m : WSMessage, m.type = "message" →
      handleMessage h conn m newID now insertOk =
        handleChatMessage h conn m newID now insertOk) ∧
    (∀ m : WSMessage, m.type = "typing" →
      handleMessage h conn m newID now insertOk = handleTyping h conn m newID now ∧
      (handleTyping h conn m newID now).dbWrites = []) ∧
    (∀ m : WSMessage, m.type = "join" →
      handleMessage h conn m newID now insertOk = handleJoinRoom h conn newID now insertOk) ∧
    (∀ m : WSMessage, m.type = "leave" →
      handleMessage h conn m newID now insertOk = handleLeaveRoom h conn newID now) := by
  obtain ⟨h1, h2, h3, h4⟩ := hunk
  refine ⟨?_, rfl, ?_, ?_, ?_, ?_⟩
  · simp [handleMessage, h1, h2, h3, h4]
  · intro m hm
    simp [handleMessage, hm]
  · intro m hm
    refine ⟨?_, rfl⟩
    simp [handleMessage, hm]
  · intro m hm
    simp [handleMessage, hm]
  · intro m hm
    simp [handleMessage, hm]

/-- Witness for C9 at type "heartbeat": an unknown type is a no-op on the
registry and produces no effects. -/
theorem c9_dispatch_policy_witness :
    (hbMsg.type ≠ "message" ∧ hbMsg.type ≠ "join" ∧
      hbMsg.type ≠ "leave" ∧ hbMsg.type ≠ "typing") ∧
    (handleMessage replayHub connC1 hbMsg "m4" 3 true =
      { hub := replayHub, dbWrites := [], broadcasts := [], publishes := [] } ∧
    readPumpStep replayHub connC1 none "m4" 3 true =
      { hub := replayHub, dbWrites := [], broadcasts := [], publishes := [] } ∧
    (∀ m : WSMessage, m.type = "message" →
      handleMessage replayHub connC1 m "m4" 3 true =
        handleChatMessage replayHub connC1 m "m4" 3 true) ∧
    (∀ m : WSMessage, m.type = "typing" →
      handleMessage replayHub connC1 m "m4" 3 true = handleTyping replayHub connC1 m "m4" 3 ∧
      (handleTyping replayHub connC1 m "m4" 3).dbWrites = []) ∧
    (∀ m : WSMessage, m.type = "join" →
      handleMessage replayHub connC1 m "m4" 3 true = handleJoinRoom replayHub connC1 "m4" 3 true) ∧
    (∀ m : WSMessage, m.type = "leave" →
      handleMessage replayHub connC1 m "m4" 3 true = handleLeaveRoom replayHub connC1 "m4" 3)) :=
  ⟨by decide, c9_dispatch_policy replayHub connC1 hbMsg "m4" 3 true (by decide)⟩

/-- The stale connection record that `connC1` replaces in C10. -/
def oldC1 : Connection := { connC1 with sendQueue := [msgHi] }

/-- C10: registering a connection whose id is already present is a silent
last-writer-wins map assignment: nothing is closed, the id now maps to
the new connection, the previous record is gone from the map, and the map
size is unchanged — so no subsequent broadcast can reach the previous
record. -/
theorem c10_register_last_writer_wins (h : Hub) (c old : Connection)
    (hold : old ∈ h.connections) (hid : old.id = c.id) (hne : old ≠ c) :
    (registerConn h c).closed = [] ∧
    lookupConn (registerConn h c).hub c.id = some c ∧
    old ∉ (registerConn h c).hub.connections ∧
    (registerConn h c).hub.connections.length = h.connections.length :=
  ⟨register_closed_nil h c, lookup_register h c,
    register_replaces h c old hold hid hne,
    register_preserves_length h c old hold hid⟩

/-- Witness for C10: re-registering id "c1" with a fresh connection record
replaces the stale record silently. -/
theorem c10_register_last_writer_wins_witness :
    (oldC1 ∈ replayHub.connections ∧ oldC1.id = connC1.id ∧ oldC1 ≠ connC1) ∧
    ((registerConn replayHub connC1).closed = [] ∧
      lookupConn (registerConn replayHub connC1).hub connC1.id = some connC1 ∧
      oldC1 ∉ (registerConn replayHub connC1).hub.connections ∧
      (registerConn replayHub connC1).hub.connections.length =
        replayHub.connections.length) :=
  ⟨⟨by decide, rfl, by decide⟩,
    c10_register_last_writer_wins replayHub connC1 oldC1 (by decide) rfl (by decide)⟩

end Chat
